import Mathlib

/-!
Verification of the blog-backend Post Service (src/app.py).

The file shallowly embeds the four Flask request handlers of src/app.py
over an explicit database state.  A request body is a parsed JSON value
(`Json`), where `Json.null` also stands for the Python value None that
flask request.get_json yields for a body that could not be parsed.  The
posts table is a list of rows plus the next value of the SERIAL id
column; CURRENT_TIMESTAMP is an explicit `now : Nat` argument threaded
into the insert.  Each handler is a pure function from the request data
and the database state to the HTTP response and the new database state,
translated line by line from the Python source.
-/

/-- A parsed JSON value as the Python json layer produces it.  `Json.null`
stands for Python None, which flask request.get_json also returns when the
request body cannot be parsed as JSON. -/
inductive Json where
  | null
  | bool (b : Bool)
  | num (n : Int)
  | str (s : String)
  | arr (elems : List Json)
  | obj (fields : List (String × Json))

/-- Python truthiness of a parsed JSON value: None, False, 0, the empty
string, the empty list and the empty dict are falsy.  The handlers test
the parsed body with `if not data`. -/
def jsonFalsy : Json → Bool
  | Json.null => true
  | Json.bool b => !b
  | Json.num n => n == 0
  | Json.str s => s.isEmpty
  | Json.arr elems => elems.isEmpty
  | Json.obj fields => fields.isEmpty

/-- Characters removed from both ends by Python str.strip, modelled with
Char.isWhitespace (space, tab, carriage return, newline). -/
def stripLeftChars (l : List Char) : List Char := l.dropWhile Char.isWhitespace

/-- Removal of trailing whitespace characters, as a list operation. -/
def stripRightChars (l : List Char) : List Char :=
  (l.reverse.dropWhile Char.isWhitespace).reverse

/-- Embeds the Python method call s.strip() with no argument: remove
leading and trailing whitespace. -/
def pyStrip (s : String) : String := ⟨stripRightChars (stripLeftChars s.data)⟩

/-- One row of the posts table: id SERIAL PRIMARY KEY, title VARCHAR(200)
NOT NULL, content TEXT NOT NULL, created_at TIMESTAMP DEFAULT
CURRENT_TIMESTAMP (src/app.py init_db). -/
structure Post where
  id : Nat
  title : String
  content : String
  created_at : Nat
deriving DecidableEq

/-- The state of the posts table: its rows and the next value the SERIAL
id sequence will hand out.  PostgreSQL sequences never go backwards, so
nextId only grows. -/
structure DB where
  rows : List Post
  nextId : Nat
deriving DecidableEq

/-- An HTTP response: status code plus the JSON body produced by jsonify. -/
structure Response where
  status : Nat
  body : Json

/-- The JSON error body jsonify({"error": msg}) used by every error path. -/
def errJson (msg : String) : Json := Json.obj [("error", Json.str msg)]

/-- The JSON object a RealDictCursor row of the posts table is serialized
to: all four columns, keyed by column name. -/
def postToJson (p : Post) : Json :=
  Json.obj [("id", Json.num (Int.ofNat p.id)), ("title", Json.str p.title),
            ("content", Json.str p.content),
            ("created_at", Json.num (Int.ofNat p.created_at))]

/-- Embeds the Python expression data.get(key, "") as used by the create
and update handlers, together with the subsequent .strip() receiver check:
on a JSON object a missing key yields the default empty string and a
present key yields its value, which must be a string for .strip() to
exist; a non-object receiver has no .get method.  Either missing method
raises AttributeError, which the blanket except of the handler turns into
a 500 response. -/
def getStrField (data : Json) (key : String) : Except String String :=
  match data with
  | Json.obj fields =>
    match List.lookup key fields with
    | some (Json.str s) => Except.ok s
    | some _ => Except.error "AttributeError: strip is not a method of this value"
    | none => Except.ok ""
  | _ => Except.error "AttributeError: get is not a method of this value"

/-- Embeds INSERT INTO posts (title, content) VALUES (...) RETURNING *
(src/app.py lines 130 to 139).  The schema column title VARCHAR(200)
makes PostgreSQL reject a longer value with error 22001, which surfaces
as an exception; otherwise the SERIAL id and the CURRENT_TIMESTAMP
default are assigned and the full inserted row is returned. -/
def DB.insert (db : DB) (title content : String) (now : Nat) :
    Except String (Post × DB) :=
  if title.length > 200 then
    Except.error "value too long for type character varying(200)"
  else
    Except.ok (⟨db.nextId, title, content, now⟩,
               ⟨db.rows ++ [⟨db.nextId, title, content, now⟩], db.nextId + 1⟩)

/-- Embeds UPDATE posts SET title = ..., content = ... WHERE id = ...
RETURNING * followed by fetchone (src/app.py lines 170 to 180).  A
constant value longer than the VARCHAR(200) column is rejected by
PostgreSQL when the assignment coercion of the literal is evaluated,
raising error 22001 and leaving the table unchanged; otherwise the
matching row, if any, receives the new title and content while its id and
created_at are kept, and the updated row is returned. -/
def DB.update (db : DB) (i : Nat) (title content : String) :
    Except String (Option Post × DB) :=
  if title.length > 200 then
    Except.error "value too long for type character varying(200)"
  else
    match db.rows.find? (fun p => p.id == i) with
    | none => Except.ok (none, db)
    | some p =>
      Except.ok (some ⟨p.id, title, content, p.created_at⟩,
                 ⟨db.rows.map (fun q =>
                    if q.id == i then ⟨q.id, title, content, q.created_at⟩ else q),
                  db.nextId⟩)

/-- Embeds DELETE FROM posts WHERE id = ... RETURNING id followed by
fetchone (src/app.py lines 205 to 210): the deleted id when a row
matched, in which case the row is removed, and none otherwise, in which
case nothing was deleted and the state is unchanged. -/
def DB.delete (db : DB) (i : Nat) : Option Nat × DB :=
  match db.rows.find? (fun p => p.id == i) with
  | none => (none, db)
  | some p => (some p.id, ⟨db.rows.filter (fun q => !(q.id == i)), db.nextId⟩)

/-- Ordering used by the list endpoint: a row comes no later than another
when its created_at is no smaller (ORDER BY created_at DESC). -/
def postGE (a b : Post) : Prop := b.created_at ≤ a.created_at

instance : DecidableRel postGE := fun a b => Nat.decLe b.created_at a.created_at

instance : IsTotal Post postGE := ⟨fun a b => Nat.le_total b.created_at a.created_at⟩

instance : IsTrans Post postGE := ⟨fun _ _ _ hab hbc => Nat.le_trans hbc hab⟩

/-- The row order produced by SELECT * FROM posts ORDER BY created_at
DESC: the rows sorted by descending created_at. -/
def sortRows (rows : List Post) : List Post := List.insertionSort postGE rows

/-- GET /api/posts (src/app.py get_posts, lines 90 to 105): fetch all
rows ordered by created_at descending, serialize them and respond 200.
The database is not modified. -/
def get_posts (db : DB) : Response × DB :=
  (⟨200, Json.arr ((sortRows db.rows).map postToJson)⟩, db)

/-- POST /api/posts (src/app.py create_post, lines 110 to 148), translated
line by line: the parsed body is tested for falsiness (400 No data
provided), the two fields are fetched with default "" and stripped, the
emptiness check gives 400 Title and content are required, the length
check gives 400 Title must be <= 200 characters, and otherwise the row is
inserted and returned with 201.  An exception from the field access or
from the database surfaces as a 500 response through the blanket except
handler. -/
def create_post (data : Json) (db : DB) (now : Nat) : Response × DB :=
  if jsonFalsy data then
    (⟨400, errJson "No data provided"⟩, db)
  else
    match getStrField data "title" with
    | Except.error e => (⟨500, errJson e⟩, db)
    | Except.ok t0 =>
      match getStrField data "content" with
      | Except.error e => (⟨500, errJson e⟩, db)
      | Except.ok c0 =>
        if pyStrip t0 = "" ∨ pyStrip c0 = "" then
          (⟨400, errJson "Title and content are required"⟩, db)
        else if (pyStrip t0).length > 200 then
          (⟨400, errJson "Title must be <= 200 characters"⟩, db)
        else
          match DB.insert db (pyStrip t0) (pyStrip c0) now with
          | Except.error e => (⟨500, errJson e⟩, db)
          | Except.ok (p, db1) => (⟨201, postToJson p⟩, db1)

/-- PUT /api/posts/(id) (src/app.py update_post, lines 153 to 194),
translated line by line: the same falsiness and emptiness checks as
create, with no length check, then the UPDATE statement; a missing row
gives 404 Post not found with nothing committed, and otherwise the
updated row is returned with 200.  An exception from the field access or
from the database surfaces as a 500 response. -/
def update_post (i : Nat) (data : Json) (db : DB) : Response × DB :=
  if jsonFalsy data then
    (⟨400, errJson "No data provided"⟩, db)
  else
    match getStrField data "title" with
    | Except.error e => (⟨500, errJson e⟩, db)
    | Except.ok t0 =>
      match getStrField data "content" with
      | Except.error e => (⟨500, errJson e⟩, db)
      | Except.ok c0 =>
        if pyStrip t0 = "" ∨ pyStrip c0 = "" then
          (⟨400, errJson "Title and content are required"⟩, db)
        else
          match DB.update db i (pyStrip t0) (pyStrip c0) with
          | Except.error e => (⟨500, errJson e⟩, db)
          | Except.ok (none, db1) => (⟨404, errJson "Post not found"⟩, db1)
          | Except.ok (some p, db1) => (⟨200, postToJson p⟩, db1)

/-- DELETE /api/posts/(id) (src/app.py delete_post, lines 199 to 224):
the DELETE statement runs, a missing row gives 404 Post not found with
nothing committed, and otherwise the confirmation message is returned
with 200. -/
def delete_post (i : Nat) (db : DB) : Response × DB :=
  match DB.delete db i with
  | (none, db1) => (⟨404, errJson "Post not found"⟩, db1)
  | (some _, db1) =>
    (⟨200, Json.obj [("message", Json.str "Post deleted successfully")]⟩, db1)

/-- Connection bookkeeping for the resource model of section 5 of the
spec: the number of database connections currently open in the process. -/
structure ConnSt where
  openConns : Nat
deriving DecidableEq

/-- Connection discipline of get_posts (src/app.py lines 92 to 105):
get_db_connection opens a connection inside the try block; when the SQL
statement raises, control jumps to the except branch, which returns the
500 response without running conn.close(); on success cur.close() and
conn.close() run before the 200 response is returned. -/
def get_posts_conn (execRaises : Bool) (s : ConnSt) : Nat × ConnSt :=
  if execRaises then (500, ⟨s.openConns + 1⟩)
  else (200, ⟨s.openConns + 1 - 1⟩)

/-- Connection discipline of create_post after validation has passed
(src/app.py lines 127 to 148): the connection is opened, and when the
INSERT raises, the except branch returns 500 without conn.close();
otherwise commit, cur.close() and conn.close() run before the 201
response. -/
def create_post_conn (execRaises : Bool) (s : ConnSt) : Nat × ConnSt :=
  if execRaises then (500, ⟨s.openConns + 1⟩)
  else (201, ⟨s.openConns + 1 - 1⟩)

/-- Connection discipline of update_post after validation has passed
(src/app.py lines 167 to 194): the connection is opened, and when the
UPDATE raises, the except branch returns 500 without conn.close(); when
no row matched, cur.close() and conn.close() run before the 404 response;
otherwise they run before the 200 response. -/
def update_post_conn (execRaises found : Bool) (s : ConnSt) : Nat × ConnSt :=
  if execRaises then (500, ⟨s.openConns + 1⟩)
  else if found then (200, ⟨s.openConns + 1 - 1⟩)
  else (404, ⟨s.openConns + 1 - 1⟩)

/-- Connection discipline of delete_post (src/app.py lines 202 to 224):
the connection is opened, and when the DELETE raises, the except branch
returns 500 without conn.close(); when no row matched, cur.close() and
conn.close() run before the 404 response; otherwise they run before the
200 response. -/
def delete_post_conn (execRaises found : Bool) (s : ConnSt) : Nat × ConnSt :=
  if execRaises then (500, ⟨s.openConns + 1⟩)
  else if found then (200, ⟨s.openConns + 1 - 1⟩)
  else (404, ⟨s.openConns + 1 - 1⟩)

/-- Data model invariant for one persisted Post, from section 3 of the
spec: non-empty trimmed title of at most 200 characters and non-empty
trimmed content. -/
def validPost (p : Post) : Prop :=
  pyStrip p.title ≠ "" ∧ (pyStrip p.title).length ≤ 200 ∧ pyStrip p.content ≠ ""

instance : DecidablePred validPost := fun p => by unfold validPost; infer_instance

/-- Database invariant: every persisted row satisfies the Post invariant,
the primary key column holds pairwise distinct values, and every assigned
id lies below the next value of the id sequence, which is what makes ids
fresh and never reused. -/
def DBInv (db : DB) : Prop :=
  (∀ p ∈ db.rows, validPost p) ∧ (db.rows.map Post.id).Nodup ∧
    ∀ p ∈ db.rows, p.id < db.nextId

instance : DecidablePred DBInv := fun db => by unfold DBInv; infer_instance

lemma dropWhile_dropWhile_same (p : Char → Bool) (l : List Char) :
    (l.dropWhile p).dropWhile p = l.dropWhile p := by
  induction l with
  | nil => rfl
  | cons a l ih =>
    by_cases h : p a = true
    · simp [List.dropWhile_cons, h, ih]
    · simp [List.dropWhile_cons, h]

lemma stripRightChars_initial (l : List Char) : stripRightChars l <+: l := by
  have h : l.reverse.dropWhile Char.isWhitespace <:+ l.reverse :=
    List.dropWhile_suffix Char.isWhitespace
  have h2 := List.reverse_prefix.mpr h
  simpa [stripRightChars] using h2

lemma dropWhile_length_le (p : Char → Bool) (l : List Char) :
    (l.dropWhile p).length ≤ l.length := by
  induction l with
  | nil => exact Nat.le_refl 0
  | cons a l ih =>
    by_cases h : p a = true
    · simp only [List.dropWhile_cons, h, if_true]
      exact Nat.le_succ_of_le ih
    · simp [List.dropWhile_cons, h]

lemma dropWhile_eq_self_of_prefix (p : Char → Bool) {m r : List Char}
    (hm : m.dropWhile p = m) (hpre : r <+: m) : r.dropWhile p = r := by
  cases r with
  | nil => rfl
  | cons a t =>
    obtain ⟨s, hs⟩ := hpre
    have hcons : m = a :: (t ++ s) := by rw [← hs]; rfl
    have hpa : p a = false := by
      by_contra hcontra
      have hpa2 : p a = true := by
        cases h2 : p a
        · exact absurd h2 hcontra
        · rfl
      rw [hcons, List.dropWhile_cons, if_pos hpa2] at hm
      have hlen := dropWhile_length_le p (t ++ s)
      rw [hm] at hlen
      simp at hlen
    rw [List.dropWhile_cons, if_neg (by simp [hpa])]

lemma stripLeft_stripRight_of_stripped (m : List Char)
    (hm : m.dropWhile Char.isWhitespace = m) :
    (stripRightChars m).dropWhile Char.isWhitespace = stripRightChars m :=
  dropWhile_eq_self_of_prefix Char.isWhitespace hm (stripRightChars_initial m)

lemma stripRightChars_idem (l : List Char) :
    stripRightChars (stripRightChars l) = stripRightChars l := by
  simp [stripRightChars, dropWhile_dropWhile_same]

/-- Python str.strip is idempotent: stripping an already stripped string
changes nothing. -/
lemma pyStrip_idem (s : String) : pyStrip (pyStrip s) = pyStrip s := by
  have hL : stripLeftChars (stripLeftChars s.data) = stripLeftChars s.data :=
    dropWhile_dropWhile_same Char.isWhitespace s.data
  have h1 : stripLeftChars (stripRightChars (stripLeftChars s.data)) =
      stripRightChars (stripLeftChars s.data) :=
    stripLeft_stripRight_of_stripped (stripLeftChars s.data) hL
  show (⟨stripRightChars (stripLeftChars
      (String.data ⟨stripRightChars (stripLeftChars s.data)⟩))⟩ : String) = _
  rw [show (String.data ⟨stripRightChars (stripLeftChars s.data)⟩ =
      stripRightChars (stripLeftChars s.data)) from rfl]
  rw [h1, stripRightChars_idem]
  rfl

/-- Case analysis of create_post: either it leaves the database untouched,
or its validation accepted the stripped fields and exactly one new row
was appended, carrying the next serial id and the stripped values. -/
lemma create_post_cases (data : Json) (db : DB) (now : Nat) :
    (create_post data db now).2 = db ∨
    ∃ t0 c0, getStrField data "title" = Except.ok t0 ∧
      getStrField data "content" = Except.ok c0 ∧
      pyStrip t0 ≠ "" ∧ pyStrip c0 ≠ "" ∧ (pyStrip t0).length ≤ 200 ∧
      (create_post data db now).1 =
        ⟨201, postToJson ⟨db.nextId, pyStrip t0, pyStrip c0, now⟩⟩ ∧
      (create_post data db now).2 =
        ⟨db.rows ++ [⟨db.nextId, pyStrip t0, pyStrip c0, now⟩], db.nextId + 1⟩ := by
  by_cases hf : jsonFalsy data = true
  · left; simp [create_post, hf]
  · cases ht : getStrField data "title" with
    | error e => left; simp [create_post, hf, ht]
    | ok t0 =>
      cases hc : getStrField data "content" with
      | error e => left; simp [create_post, hf, ht, hc]
      | ok c0 =>
        by_cases hreq : pyStrip t0 = "" ∨ pyStrip c0 = ""
        · left; simp [create_post, hf, ht, hc, hreq]
        · by_cases hlen : (pyStrip t0).length > 200
          · left; simp [create_post, hf, ht, hc, hreq, hlen]
          · refine Or.inr ⟨t0, c0, rfl, rfl, fun h => hreq (Or.inl h),
              fun h => hreq (Or.inr h), Nat.not_lt.mp hlen, ?_, ?_⟩ <;>
              simp [create_post, hf, ht, hc, hreq, hlen, DB.insert]

/-- Case analysis of update_post: either it leaves the database untouched,
or its validation accepted the stripped fields, the title fit the storage
column, a row matched, and exactly that row was overwritten in place with
the stripped values, keeping its id and created_at. -/
lemma update_post_cases (i : Nat) (data : Json) (db : DB) :
    (update_post i data db).2 = db ∨
    ∃ t0 c0 p, getStrField data "title" = Except.ok t0 ∧
      getStrField data "content" = Except.ok c0 ∧
      pyStrip t0 ≠ "" ∧ pyStrip c0 ≠ "" ∧ (pyStrip t0).length ≤ 200 ∧
      db.rows.find? (fun q => q.id == i) = some p ∧
      (update_post i data db).1 =
        ⟨200, postToJson ⟨p.id, pyStrip t0, pyStrip c0, p.created_at⟩⟩ ∧
      (update_post i data db).2 =
        ⟨db.rows.map (fun q =>
           if q.id == i then ⟨q.id, pyStrip t0, pyStrip c0, q.created_at⟩ else q),
         db.nextId⟩ := by
  by_cases hf : jsonFalsy data = true
  · left; simp [update_post, hf]
  · cases ht : getStrField data "title" with
    | error e => left; simp [update_post, hf, ht]
    | ok t0 =>
      cases hc : getStrField data "content" with
      | error e => left; simp [update_post, hf, ht, hc]
      | ok c0 =>
        by_cases hreq : pyStrip t0 = "" ∨ pyStrip c0 = ""
        · left; simp [update_post, hf, ht, hc, hreq]
        · by_cases hlen : (pyStrip t0).length > 200
          · left; simp [update_post, hf, ht, hc, hreq, hlen, DB.update]
          · cases hfind : db.rows.find? (fun q => q.id == i) with
            | none =>
              left
              simp [update_post, hf, ht, hc, hreq, hlen, DB.update, hfind]
            | some p =>
              refine Or.inr ⟨t0, c0, p, rfl, rfl, fun h => hreq (Or.inl h),
                fun h => hreq (Or.inr h), Nat.not_lt.mp hlen, rfl, ?_, ?_⟩ <;>
                simp [update_post, hf, ht, hc, hreq, hlen, DB.update, hfind]

/-- Case analysis of delete_post: a missing row gives the 404 response
with the state unchanged, and a matching row gives the 200 confirmation
with exactly the rows of a different id kept. -/
lemma delete_post_cases (i : Nat) (db : DB) :
    ((delete_post i db).1 = ⟨404, errJson "Post not found"⟩ ∧
      (delete_post i db).2 = db ∧
      db.rows.find? (fun q => q.id == i) = none) ∨
    ∃ p, db.rows.find? (fun q => q.id == i) = some p ∧
      (delete_post i db).1 =
        ⟨200, Json.obj [("message", Json.str "Post deleted successfully")]⟩ ∧
      (delete_post i db).2 = ⟨db.rows.filter (fun q => !(q.id == i)), db.nextId⟩ := by
  unfold delete_post DB.delete
  cases hfind : db.rows.find? (fun q => q.id == i) with
  | none => exact Or.inl ⟨rfl, rfl, rfl⟩
  | some p => exact Or.inr ⟨p, rfl, rfl, rfl⟩

/-- Stripped field values produce a row satisfying the Post invariant,
because stripping is idempotent. -/
lemma validPost_of_stripped (t c : String) (idx now : Nat)
    (ht : pyStrip t ≠ "") (hc : pyStrip c ≠ "")
    (hl : (pyStrip t).length ≤ 200) :
    validPost ⟨idx, pyStrip t, pyStrip c, now⟩ := by
  refine ⟨?_, ?_, ?_⟩ <;> simp only [validPost, pyStrip_idem]
  · exact ht
  · exact hl
  · exact hc

/-- Overwriting the fields of the rows matching an id does not change the
id column of the table. -/
lemma map_overwrite_id (rows : List Post) (i : Nat) (t c : String) :
    (rows.map (fun q =>
       if q.id == i then (⟨q.id, t, c, q.created_at⟩ : Post) else q)).map Post.id =
      rows.map Post.id := by
  rw [List.map_map]
  refine List.map_congr_left fun q _ => ?_
  by_cases h : q.id == i <;> simp [h, Function.comp]

/-- When the id column is duplicate-free and some row has the given id,
deleting the rows of that id removes exactly one row. -/
lemma filter_ne_length (i : Nat) (rows : List Post)
    (hnd : (rows.map Post.id).Nodup) (p : Post) (hp : p ∈ rows)
    (hpi : p.id = i) :
    (rows.filter (fun q => !(q.id == i))).length + 1 = rows.length := by
  induction rows with
  | nil => cases hp
  | cons a l ih =>
    rw [List.map_cons, List.nodup_cons] at hnd
    obtain ⟨ha, hnd'⟩ := hnd
    rcases List.mem_cons.mp hp with rfl | hpl
    · have hkeep : l.filter (fun q => !(q.id == i)) = l := by
        refine List.filter_eq_self.mpr fun q hq => ?_
        have : q.id ≠ i := by
          intro hqi
          exact ha (hpi ▸ hqi ▸ List.mem_map_of_mem Post.id hq)
        simp [this]
      simp [List.filter_cons, hpi, hkeep]
    · have hai : (a.id == i) = false := by
        have : a.id ≠ i := by
          intro hae
          exact ha (hae ▸ hpi ▸ List.mem_map_of_mem Post.id hpl)
        simp [this]
      simp only [List.filter_cons, hai, Bool.not_false, if_true, List.length_cons]
      rw [← ih hnd' hpl]

/-- C5: for every database state, the list operation returns HTTP 200
with a JSON array containing every persisted row serialized with its id,
title, content and created_at fields, ordered by created_at descending
(newest first), and leaves the database unchanged; an empty table yields
an empty array. -/
theorem get_posts_list_spec (db : DB) :
    (get_posts db).2 = db ∧
    (get_posts db).1.status = 200 ∧
    (get_posts db).1.body = Json.arr ((sortRows db.rows).map postToJson) ∧
    (sortRows db.rows).Perm db.rows ∧
    List.Sorted postGE (sortRows db.rows) ∧
    (get_posts ⟨[], db.nextId⟩).1.body = Json.arr [] :=
  ⟨rfl, rfl, rfl, List.perm_insertionSort postGE db.rows,
   List.sorted_insertionSort postGE db.rows, rfl⟩

/-- C9: a request body parsing to a falsy JSON value, namely the empty
object, the empty array, false, 0 or null, makes both the create and the
update operation answer 400 with the error message No data provided, not
the missing-field message, leaving the database unchanged. -/
theorem falsy_body_no_data_spec (data : Json) (i : Nat) (db : DB) (now : Nat)
    (h : data = Json.null ∨ data = Json.obj [] ∨ data = Json.arr [] ∨
      data = Json.bool false ∨ data = Json.num 0) :
    create_post data db now = (⟨400, errJson "No data provided"⟩, db) ∧
    update_post i data db = (⟨400, errJson "No data provided"⟩, db) := by
  have hf : jsonFalsy data = true := by
    rcases h with rfl | rfl | rfl | rfl | rfl <;> rfl
  constructor <;> simp [create_post, update_post, hf]

/-- Witness for C9 at the empty JSON object on a one-row table. -/
theorem falsy_body_no_data_witness :
    create_post (Json.obj []) ⟨[⟨1, "t", "c", 5⟩], 2⟩ 9 =
      (⟨400, errJson "No data provided"⟩, ⟨[⟨1, "t", "c", 5⟩], 2⟩) ∧
    update_post 1 (Json.obj []) ⟨[⟨1, "t", "c", 5⟩], 2⟩ =
      (⟨400, errJson "No data provided"⟩, ⟨[⟨1, "t", "c", 5⟩], 2⟩) :=
  falsy_body_no_data_spec (Json.obj []) 1 ⟨[⟨1, "t", "c", 5⟩], 2⟩ 9
    (Or.inr (Or.inl rfl))

/-- C6: a create or update request answered with HTTP 400 leaves the
database state exactly as it was; the validation rejects the request
before any storage statement runs. -/
theorem validation_rejects_before_storage (data : Json) (i : Nat) (db : DB)
    (now : Nat) :
    ((create_post data db now).1.status = 400 →
      (create_post data db now).2 = db) ∧
    ((update_post i data db).1.status = 400 →
      (update_post i data db).2 = db) := by
  constructor
  · intro h400
    rcases create_post_cases data db now with h | ⟨t0, c0, _, _, _, _, _, h1, _⟩
    · exact h
    · rw [h1] at h400
      simp at h400
  · intro h400
    rcases update_post_cases i data db with h | ⟨t0, c0, p, _, _, _, _, _, _, h1, _⟩
    · exact h
    · rw [h1] at h400
      simp at h400

/-- Witness for C6: a whitespace-only title is answered 400 and the
one-row table is unchanged by both operations. -/
theorem validation_rejects_before_storage_witness :
    (create_post (Json.obj [("title", Json.str " "), ("content", Json.str "x")])
        ⟨[⟨1, "t", "c", 5⟩], 2⟩ 9).2 = ⟨[⟨1, "t", "c", 5⟩], 2⟩ ∧
    (update_post 1 (Json.obj [("title", Json.str " "), ("content", Json.str "x")])
        ⟨[⟨1, "t", "c", 5⟩], 2⟩).2 = ⟨[⟨1, "t", "c", 5⟩], 2⟩ :=
  ⟨(validation_rejects_before_storage
      (Json.obj [("title", Json.str " "), ("content", Json.str "x")]) 1
      ⟨[⟨1, "t", "c", 5⟩], 2⟩ 9).1 rfl,
   (validation_rejects_before_storage
      (Json.obj [("title", Json.str " "), ("content", Json.str "x")]) 1
      ⟨[⟨1, "t", "c", 5⟩], 2⟩ 9).2 rfl⟩

/-- C10: whenever update or delete answers HTTP 404 because no row
matches the id, the database state is exactly the same afterwards; the
not-found path commits nothing. -/
theorem notfound_no_side_effect (i : Nat) (data : Json) (db : DB) :
    ((update_post i data db).1.status = 404 → (update_post i data db).2 = db) ∧
    ((delete_post i db).1.status = 404 → (delete_post i db).2 = db) := by
  constructor
  · intro h404
    rcases update_post_cases i data db with h | ⟨t0, c0, p, _, _, _, _, _, _, h1, _⟩
    · exact h
    · rw [h1] at h404
      simp at h404
  · intro h404
    rcases delete_post_cases i db with ⟨_, h, _⟩ | ⟨p, _, h1, _⟩
    · exact h
    · rw [h1] at h404
      simp at h404

/-- Witness for C10: on a one-row table, updating and deleting the absent
id 7 answer 404 and leave the table unchanged. -/
theorem notfound_no_side_effect_witness :
    (update_post 7 (Json.obj [("title", Json.str "a"), ("content", Json.str "b")])
        ⟨[⟨1, "t", "c", 5⟩], 2⟩).2 = ⟨[⟨1, "t", "c", 5⟩], 2⟩ ∧
    (delete_post 7 ⟨[⟨1, "t", "c", 5⟩], 2⟩).2 = ⟨[⟨1, "t", "c", 5⟩], 2⟩ :=
  ⟨(notfound_no_side_effect 7
      (Json.obj [("title", Json.str "a"), ("content", Json.str "b")])
      ⟨[⟨1, "t", "c", 5⟩], 2⟩).1 rfl,
   (notfound_no_side_effect 7
      (Json.obj [("title", Json.str "a"), ("content", Json.str "b")])
      ⟨[⟨1, "t", "c", 5⟩], 2⟩).2 rfl⟩

/-- C8 counterexample: when the SQL statement of the list endpoint raises,
the handler answers 500 while the connection opened by get_db_connection
is still open; the claim that the connection is released on every failure
path is false on the code, which has no finally block and no context
manager. -/
theorem get_posts_conn_leak_cex :
    (get_posts_conn true ⟨0⟩).1 = 500 ∧
    (get_posts_conn true ⟨0⟩).2.openConns = 1 := by
  constructor <;> rfl

/-- C8 amended: each handler that acquires a connection releases it
before responding on the success path and on the not-found path, but when
the SQL statement raises an exception the blanket except handler returns
the 500 response with the connection still open. -/
theorem conn_release_spec (s : ConnSt) (found : Bool) :
    ((get_posts_conn false s).2 = s ∧
     (create_post_conn false s).2 = s ∧
     (update_post_conn false found s).2 = s ∧
     (delete_post_conn false found s).2 = s) ∧
    ((get_posts_conn true s).2.openConns = s.openConns + 1 ∧
     (create_post_conn true s).2.openConns = s.openConns + 1 ∧
     (update_post_conn true found s).2.openConns = s.openConns + 1 ∧
     (delete_post_conn true found s).2.openConns = s.openConns + 1) := by
  obtain ⟨n⟩ := s
  cases found <;>
    simp [get_posts_conn, create_post_conn, update_post_conn, delete_post_conn]

/-- C1: a create request whose parsed body is a truthy JSON object with
string title and content fields that are non-empty after stripping and
whose stripped title has at most 200 characters appends exactly one new
row carrying the stripped title and content, the generated serial id and
the auto-assigned created_at, and answers 201 with the full inserted row
serialized as JSON, id and created_at included. -/
theorem create_post_valid_spec (db : DB) (now : Nat) (data : Json)
    (t0 c0 : String)
    (hobj : jsonFalsy data = false)
    (ht : getStrField data "title" = Except.ok t0)
    (hc : getStrField data "content" = Except.ok c0)
    (htne : pyStrip t0 ≠ "") (hcne : pyStrip c0 ≠ "")
    (hlen : (pyStrip t0).length ≤ 200) :
    create_post data db now =
      (⟨201, postToJson ⟨db.nextId, pyStrip t0, pyStrip c0, now⟩⟩,
       ⟨db.rows ++ [⟨db.nextId, pyStrip t0, pyStrip c0, now⟩], db.nextId + 1⟩) ∧
    postToJson ⟨db.nextId, pyStrip t0, pyStrip c0, now⟩ =
      Json.obj [("id", Json.num (Int.ofNat db.nextId)),
                ("title", Json.str (pyStrip t0)),
                ("content", Json.str (pyStrip c0)),
                ("created_at", Json.num (Int.ofNat now))] := by
  have hreq : ¬(pyStrip t0 = "" ∨ pyStrip c0 = "") := by
    rintro (h | h)
    · exact htne h
    · exact hcne h
  have hlen2 : ¬((pyStrip t0).length > 200) := Nat.not_lt.mpr hlen
  constructor
  · simp [create_post, hobj, ht, hc, hreq, hlen2, DB.insert]
  · rfl

/-- Witness for C1: creating a post with padded title and content on a
one-row table trims both, assigns id 2 and created_at 9, and answers 201
with the inserted row. -/
theorem create_post_valid_witness :
    create_post (Json.obj [("title", Json.str " Hello "),
                           ("content", Json.str " World ")])
        ⟨[⟨1, "t", "c", 5⟩], 2⟩ 9 =
      (⟨201, postToJson ⟨2, "Hello", "World", 9⟩⟩,
       ⟨[⟨1, "t", "c", 5⟩, ⟨2, "Hello", "World", 9⟩], 3⟩) :=
  (create_post_valid_spec ⟨[⟨1, "t", "c", 5⟩], 2⟩ 9
    (Json.obj [("title", Json.str " Hello "), ("content", Json.str " World ")])
    " Hello " " World " rfl rfl rfl (by decide) (by decide) (by decide)).1

/-- C2 counterexample: the body parsing to the empty JSON object is
parseable and lacks both fields, yet the create operation answers with
the message No data provided, not with Title and content are required,
because the empty dict is falsy in Python and the handler tests
`if not data` first. -/
theorem create_post_empty_object_cex :
    (create_post (Json.obj []) ⟨[], 1⟩ 0).1.status = 400 ∧
    (create_post (Json.obj []) ⟨[], 1⟩ 0).1.body = errJson "No data provided" ∧
    ("No data provided" : String) ≠ "Title and content are required" := by
  refine ⟨rfl, rfl, by decide⟩

/-- C2 amended: the create operation validates in this order: a body that
is unparseable (so the parsed data is None) or parses to a falsy JSON
value answers 400 No data provided; otherwise, for a truthy object body
with string fields, if title or content is empty after stripping it
answers 400 Title and content are required — in particular a truthy body
missing either field, the field defaulting to the empty string; otherwise,
if the stripped title exceeds 200 characters it answers 400 Title must be
<= 200 characters.  Each rejection leaves the database unchanged. -/
theorem create_post_validation_order_spec (db : DB) (now : Nat) (data : Json)
    (t0 c0 : String)
    (hobj : jsonFalsy data = false)
    (ht : getStrField data "title" = Except.ok t0)
    (hc : getStrField data "content" = Except.ok c0) :
    (create_post Json.null db now = (⟨400, errJson "No data provided"⟩, db)) ∧
    (∀ d, jsonFalsy d = true →
      create_post d db now = (⟨400, errJson "No data provided"⟩, db)) ∧
    (pyStrip t0 = "" ∨ pyStrip c0 = "" →
      create_post data db now =
        (⟨400, errJson "Title and content are required"⟩, db)) ∧
    (pyStrip t0 ≠ "" → pyStrip c0 ≠ "" → (pyStrip t0).length > 200 →
      create_post data db now =
        (⟨400, errJson "Title must be <= 200 characters"⟩, db)) := by
  refine ⟨by simp [create_post, jsonFalsy], fun d hd => by simp [create_post, hd],
    fun hreq => ?_, fun htne hcne hlen => ?_⟩
  · simp [create_post, hobj, ht, hc, hreq]
  · have hreq : ¬(pyStrip t0 = "" ∨ pyStrip c0 = "") := by
      rintro (h | h)
      · exact htne h
      · exact hcne h
    simp [create_post, hobj, ht, hc, hreq, hlen]

set_option maxRecDepth 8000 in
/-- Witness for C2 as amended: a truthy object body missing the title
field is answered with the missing-field message, and a 201-character
title is answered with the length message. -/
theorem create_post_validation_order_witness :
    create_post (Json.obj [("content", Json.str "x")]) ⟨[], 1⟩ 0 =
      (⟨400, errJson "Title and content are required"⟩, ⟨[], 1⟩) ∧
    create_post (Json.obj [("title", Json.str ⟨List.replicate 201 'a'⟩),
                           ("content", Json.str "x")]) ⟨[], 1⟩ 0 =
      (⟨400, errJson "Title must be <= 200 characters"⟩, ⟨[], 1⟩) :=
  ⟨(create_post_validation_order_spec ⟨[], 1⟩ 0
      (Json.obj [("content", Json.str "x")]) "" "x" rfl rfl rfl).2.2.1
      (Or.inl rfl),
   (create_post_validation_order_spec ⟨[], 1⟩ 0
      (Json.obj [("title", Json.str ⟨List.replicate 201 'a'⟩),
                 ("content", Json.str "x")])
      ⟨List.replicate 201 'a'⟩ "x" rfl rfl rfl).2.2.2
      (by decide) (by decide) (by decide)⟩

set_option maxRecDepth 8000 in
/-- C3 counterexample: an update of the existing row id 1 with a
201-character title passes the endpoint validation (the stripped title is
non-empty and update re-checks no length), yet the row is not replaced
and the status is not 200: the VARCHAR(200) storage column rejects the
value, the handler answers 500, and the database is unchanged. -/
theorem update_post_long_title_cex :
    (update_post 1 (Json.obj [("title", Json.str ⟨List.replicate 201 'a'⟩),
                              ("content", Json.str "x")])
        ⟨[⟨1, "t", "c", 5⟩], 2⟩).1.status = 500 ∧
    (update_post 1 (Json.obj [("title", Json.str ⟨List.replicate 201 'a'⟩),
                              ("content", Json.str "x")])
        ⟨[⟨1, "t", "c", 5⟩], 2⟩).2 = ⟨[⟨1, "t", "c", 5⟩], 2⟩ ∧
    pyStrip ⟨List.replicate 201 'a'⟩ ≠ "" ∧
    pyStrip "x" ≠ "" := by
  refine ⟨rfl, rfl, by decide, by decide⟩

/-- C3 amended: for an update request whose body is a truthy JSON object
with string fields that are non-empty after stripping, and whose stripped
title fits the 200-character storage column: if no row matches the id the
operation answers 404 with the Post not found error and the state is
unchanged, and if a row matches, exactly that row gets the stripped title
and content while its id and created_at are kept, every other row is
untouched, and the updated row is returned with 200.  The update endpoint
validation itself never checks the 200-character limit; instead, when a
row matches and the stripped title exceeds 200 characters, the storage
layer rejects the statement, the operation answers 500 and the state is
unchanged. -/
theorem update_post_found_spec (i : Nat) (db : DB) (data : Json)
    (t0 c0 : String)
    (hobj : jsonFalsy data = false)
    (ht : getStrField data "title" = Except.ok t0)
    (hc : getStrField data "content" = Except.ok c0)
    (htne : pyStrip t0 ≠ "") (hcne : pyStrip c0 ≠ "") :
    ((pyStrip t0).length ≤ 200 →
      db.rows.find? (fun q => q.id == i) = none →
      update_post i data db = (⟨404, errJson "Post not found"⟩, db)) ∧
    ((pyStrip t0).length ≤ 200 →
      ∀ p, db.rows.find? (fun q => q.id == i) = some p →
      update_post i data db =
        (⟨200, postToJson ⟨p.id, pyStrip t0, pyStrip c0, p.created_at⟩⟩,
         ⟨db.rows.map (fun q =>
            if q.id == i then ⟨q.id, pyStrip t0, pyStrip c0, q.created_at⟩
            else q),
          db.nextId⟩)) ∧
    ((pyStrip t0).length > 200 →
      ∀ p, db.rows.find? (fun q => q.id == i) = some p →
      (update_post i data db).1.status = 500 ∧
      (update_post i data db).2 = db) := by
  have hreq : ¬(pyStrip t0 = "" ∨ pyStrip c0 = "") := by
    rintro (h | h)
    · exact htne h
    · exact hcne h
  refine ⟨fun hlen hfind => ?_, fun hlen p hfind => ?_, fun hlen p hfind => ?_⟩
  · have hlen2 : ¬((pyStrip t0).length > 200) := Nat.not_lt.mpr hlen
    simp [update_post, hobj, ht, hc, hreq, DB.update, hlen2, hfind]
  · have hlen2 : ¬((pyStrip t0).length > 200) := Nat.not_lt.mpr hlen
    simp [update_post, hobj, ht, hc, hreq, DB.update, hlen2, hfind]
  · constructor <;> simp [update_post, hobj, ht, hc, hreq, DB.update, hlen, hfind]

/-- Witness for C3 as amended: updating the existing row id 1 of a
two-row table replaces its title and content with the stripped values,
keeps its id and created_at, leaves row id 2 untouched, and answers 200
with the updated row. -/
theorem update_post_found_witness :
    update_post 1 (Json.obj [("title", Json.str " New "),
                             ("content", Json.str " Body ")])
        ⟨[⟨1, "t", "c", 5⟩, ⟨2, "u", "d", 6⟩], 3⟩ =
      (⟨200, postToJson ⟨1, "New", "Body", 5⟩⟩,
       ⟨[⟨1, "New", "Body", 5⟩, ⟨2, "u", "d", 6⟩], 3⟩) :=
  (update_post_found_spec 1 ⟨[⟨1, "t", "c", 5⟩, ⟨2, "u", "d", 6⟩], 3⟩
      (Json.obj [("title", Json.str " New "), ("content", Json.str " Body ")])
      " New " " Body " rfl rfl rfl (by decide) (by decide)).2.1
    (by decide) ⟨1, "t", "c", 5⟩ rfl

/-- C4: on a table whose id column is duplicate-free, deleting an id that
some row carries answers 200 with the confirmation message, removes
exactly that row — the surviving rows are precisely those with a
different id, one fewer than before — and a second delete of the same id
then answers 404 Post not found; deleting an id that no row carries
answers 404 Post not found and leaves the state unchanged. -/
theorem delete_post_found_spec (i : Nat) (db : DB)
    (hnd : (db.rows.map Post.id).Nodup) :
    (∀ p ∈ db.rows, p.id = i →
      (delete_post i db).1 =
        ⟨200, Json.obj [("message", Json.str "Post deleted successfully")]⟩ ∧
      (delete_post i db).2.rows = db.rows.filter (fun q => !(q.id == i)) ∧
      (delete_post i db).2.rows.length + 1 = db.rows.length ∧
      (delete_post i (delete_post i db).2).1 = ⟨404, errJson "Post not found"⟩) ∧
    ((∀ p ∈ db.rows, p.id ≠ i) →
      delete_post i db = (⟨404, errJson "Post not found"⟩, db)) := by
  constructor
  · intro p hp hpi
    have hfind : ∃ p', db.rows.find? (fun q => q.id == i) = some p' := by
      refine Option.isSome_iff_exists.mp ?_
      exact List.find?_isSome.mpr ⟨p, hp, by simp [hpi]⟩
    obtain ⟨p', hfind⟩ := hfind
    rcases delete_post_cases i db with ⟨_, _, h3⟩ | ⟨q, _, h200, hrows⟩
    · rw [hfind] at h3
      cases h3
    · have hnone : (db.rows.filter (fun q => !(q.id == i))).find?
          (fun q => q.id == i) = none := by
        refine List.find?_eq_none.mpr fun x hx => ?_
        have hne := (List.mem_filter.mp hx).2
        simp at hne
        simp [hne]
      refine ⟨h200, by rw [hrows], ?_, ?_⟩
      · rw [hrows]
        exact filter_ne_length i db.rows hnd p hp hpi
      · rw [hrows]
        simp [delete_post, DB.delete, hnone]
  · intro hall
    have hfind : db.rows.find? (fun q => q.id == i) = none := by
      refine List.find?_eq_none.mpr fun x hx => ?_
      simp [hall x hx]
    simp [delete_post, DB.delete, hfind]

/-- Witness for C4: deleting id 1 from a two-row table answers 200,
leaves only row id 2, and a second delete of id 1 answers 404. -/
theorem delete_post_found_witness :
    (delete_post 1 ⟨[⟨1, "t", "c", 5⟩, ⟨2, "u", "d", 6⟩], 3⟩).1 =
      ⟨200, Json.obj [("message", Json.str "Post deleted successfully")]⟩ ∧
    (delete_post 1 ⟨[⟨1, "t", "c", 5⟩, ⟨2, "u", "d", 6⟩], 3⟩).2.rows.length + 1 = 2 ∧
    (delete_post 1 (delete_post 1 ⟨[⟨1, "t", "c", 5⟩, ⟨2, "u", "d", 6⟩], 3⟩).2).1 =
      ⟨404, errJson "Post not found"⟩ := by
  have h := (delete_post_found_spec 1 ⟨[⟨1, "t", "c", 5⟩, ⟨2, "u", "d", 6⟩], 3⟩
      (by decide)).1 ⟨1, "t", "c", 5⟩ (by decide) rfl
  exact ⟨h.1, h.2.2.1, h.2.2.2⟩

lemma create_post_DBInv (data : Json) (db : DB) (now : Nat) (h : DBInv db) :
    DBInv (create_post data db now).2 ∧
    db.nextId ≤ (create_post data db now).2.nextId ∧
    ∀ q ∈ (create_post data db now).2.rows,
      q.id ∈ db.rows.map Post.id ∨ q.id = db.nextId := by
  obtain ⟨hvalid, hnd, hlt⟩ := h
  rcases create_post_cases data db now with
    h2 | ⟨t0, c0, _, _, htne, hcne, hlen, _, h2⟩
  · rw [h2]
    exact ⟨⟨hvalid, hnd, hlt⟩, Nat.le_refl _,
      fun q hq => Or.inl (List.mem_map_of_mem Post.id hq)⟩
  · rw [h2]
    refine ⟨⟨?_, ?_, ?_⟩, Nat.le_succ _, ?_⟩
    · intro p hp
      rcases List.mem_append.mp hp with hp | hp
      · exact hvalid p hp
      · rw [List.mem_singleton.mp hp]
        exact validPost_of_stripped t0 c0 db.nextId now htne hcne hlen
    · simp only [List.map_append, List.map_cons, List.map_nil]
      refine List.nodup_append.mpr ⟨hnd, List.nodup_singleton _, ?_⟩
      intro a ha ha2
      rw [List.mem_singleton] at ha2
      obtain ⟨p, hp, hpa⟩ := List.mem_map.mp ha
      rw [ha2] at hpa
      exact Nat.lt_irrefl db.nextId (hpa ▸ hlt p hp)
    · intro p hp
      rcases List.mem_append.mp hp with hp | hp
      · exact Nat.lt_succ_of_lt (hlt p hp)
      · rw [List.mem_singleton.mp hp]
        exact Nat.lt_succ_self db.nextId
    · intro q hq
      rcases List.mem_append.mp hq with hq | hq
      · exact Or.inl (List.mem_map_of_mem Post.id hq)
      · rw [List.mem_singleton.mp hq]
        exact Or.inr rfl

lemma update_post_DBInv (i : Nat) (data : Json) (db : DB) (h : DBInv db) :
    DBInv (update_post i data db).2 ∧
    (update_post i data db).2.nextId = db.nextId ∧
    ∀ q ∈ (update_post i data db).2.rows, q.id ∈ db.rows.map Post.id := by
  obtain ⟨hvalid, hnd, hlt⟩ := h
  rcases update_post_cases i data db with
    h2 | ⟨t0, c0, p, _, _, htne, hcne, hlen, hfind, _, h2⟩
  · rw [h2]
    exact ⟨⟨hvalid, hnd, hlt⟩, rfl, fun q hq => List.mem_map_of_mem Post.id hq⟩
  · rw [h2]
    refine ⟨⟨?_, ?_, ?_⟩, rfl, ?_⟩
    · intro q hq
      obtain ⟨r, hr, rfl⟩ := List.mem_map.mp hq
      by_cases hri : (r.id == i) = true
      · simp only [hri, if_true]
        exact validPost_of_stripped t0 c0 r.id r.created_at htne hcne hlen
      · simp only [hri, if_false]
        exact hvalid r hr
    · rw [map_overwrite_id]
      exact hnd
    · intro q hq
      obtain ⟨r, hr, rfl⟩ := List.mem_map.mp hq
      by_cases hri : (r.id == i) = true
      · simpa [hri] using hlt r hr
      · simpa [hri] using hlt r hr
    · intro q hq
      obtain ⟨r, hr, rfl⟩ := List.mem_map.mp hq
      by_cases hri : (r.id == i) = true
      · simp only [hri, if_true]
        exact List.mem_map.mpr ⟨r, hr, rfl⟩
      · simp only [hri, if_false]
        exact List.mem_map_of_mem Post.id hr

lemma delete_post_DBInv (i : Nat) (db : DB) (h : DBInv db) :
    DBInv (delete_post i db).2 ∧
    (delete_post i db).2.nextId = db.nextId ∧
    ∀ q ∈ (delete_post i db).2.rows, q.id ∈ db.rows.map Post.id := by
  obtain ⟨hvalid, hnd, hlt⟩ := h
  rcases delete_post_cases i db with ⟨_, h2, _⟩ | ⟨p, _, _, h2⟩
  · rw [h2]
    exact ⟨⟨hvalid, hnd, hlt⟩, rfl, fun q hq => List.mem_map_of_mem Post.id hq⟩
  · rw [h2]
    refine ⟨⟨?_, ?_, ?_⟩, rfl, ?_⟩
    · intro q hq
      exact hvalid q (List.mem_filter.mp hq).1
    · exact List.Nodup.sublist (List.Sublist.map Post.id (List.filter_sublist _)) hnd
    · intro q hq
      exact hlt q (List.mem_filter.mp hq).1
    · intro q hq
      exact List.mem_map_of_mem Post.id (List.mem_filter.mp hq).1

/-- C7: every operation preserves the data model invariant — in every
reachable state each persisted Post has a non-empty trimmed title of at
most 200 characters and non-empty trimmed content, and the id column is
duplicate-free with every id below the id sequence — and ids are never
reused: the sequence value never decreases, update and delete never mint
an id, and the only id create adds is the fresh sequence value, which is
larger than every assigned id. -/
theorem crud_preserves_invariant (data : Json) (i : Nat) (db : DB) (now : Nat)
    (h : DBInv db) :
    DBInv (create_post data db now).2 ∧
    DBInv (update_post i data db).2 ∧
    DBInv (delete_post i db).2 ∧
    db.nextId ≤ (create_post data db now).2.nextId ∧
    (update_post i data db).2.nextId = db.nextId ∧
    (delete_post i db).2.nextId = db.nextId ∧
    (∀ q ∈ (create_post data db now).2.rows,
      q.id ∈ db.rows.map Post.id ∨ q.id = db.nextId) ∧
    (∀ q ∈ (update_post i data db).2.rows, q.id ∈ db.rows.map Post.id) ∧
    (∀ q ∈ (delete_post i db).2.rows, q.id ∈ db.rows.map Post.id) := by
  obtain ⟨hc1, hc2, hc3⟩ := create_post_DBInv data db now h
  obtain ⟨hu1, hu2, hu3⟩ := update_post_DBInv i data db h
  obtain ⟨hd1, hd2, hd3⟩ := delete_post_DBInv i db h
  exact ⟨hc1, hu1, hd1, hc2, hu2, hd2, hc3, hu3, hd3⟩

/-- Witness for C7: on a valid one-row table, a create, an update of row
id 1, and a delete of row id 1 each leave a state satisfying the
invariant. -/
theorem crud_preserves_invariant_witness :
    DBInv ⟨[⟨1, "t", "c", 5⟩], 2⟩ ∧
    DBInv (create_post (Json.obj [("title", Json.str "A"),
        ("content", Json.str "B")]) ⟨[⟨1, "t", "c", 5⟩], 2⟩ 9).2 ∧
    DBInv (update_post 1 (Json.obj [("title", Json.str "A"),
        ("content", Json.str "B")]) ⟨[⟨1, "t", "c", 5⟩], 2⟩).2 ∧
    DBInv (delete_post 1 ⟨[⟨1, "t", "c", 5⟩], 2⟩).2 := by
  have h := crud_preserves_invariant
    (Json.obj [("title", Json.str "A"), ("content", Json.str "B")]) 1
    ⟨[⟨1, "t", "c", 5⟩], 2⟩ 9 (by decide)
  exact ⟨by decide, h.1, h.2.1, h.2.2.1⟩
